import Mathlib

/-!
Shallow embedding of the nuplan-devkit scenario tab
(nuplan/planning/nuboard/tabs/scenario_tab.py) and of the raster model
(nuplan/planning/training/modeling/models/raster_model_our.py).

Conventions of the embedding:
* pandas cells that may hold Python `None` are modelled as `Option ℚ`
  (`none` = Python `None`);
* the `num_scenarios` cell of a metric-aggregator row is modelled as
  `Option ℚ` with `none` standing for an empty cell (float NaN), since the
  source tests it with `np.isnan`;
* `numpy.round(x, 4)` is modelled at the rational level by `round4`;
* Bokeh widgets are modelled by explicit state records, and Bokeh event
  handlers by state-transition functions;
* `doc.add_next_tick_callback` is modelled by a queue of deferred layout
  actions processed after the synchronous actions of a handler.
-/

/-- Rounding of a scalar to 4 decimal digits, the rational-level model of
`numpy.round(x, 4)`. -/
def round4 (q : ℚ) : ℚ := (round (q * 10000) : ℤ) / 10000

/-- Mirror of the dataclass `ScenarioMetricScoreData` of scenario_tab.py. -/
structure ScenarioMetricScoreData where
  experiment_index : Nat
  metric_aggregator_file_name : String
  metric_aggregator_file_index : Nat
  planner_name : String
  metric_statistic_name : String
  score : ℚ
deriving DecidableEq, Repr

/-- One row of a metric-aggregator dataframe, as read by
`_update_aggregation_metric`: the reserved cells it accesses by name, plus a
cell lookup for the metric columns (`none` models a Python `None` score). -/
structure AggRow where
  num_scenarios : Option ℚ
  planner_name : String
  scenario : String
  log_name : String
  cell : String → Option ℚ

/-- A metric-aggregator dataframe: its column names and its rows. -/
structure AggDataFrame where
  columns : List String
  rows : List AggRow

/-- The reserved (non-metric) column set of `_update_aggregation_metric`. -/
def non_metric_columns : List String :=
  ["scenario", "log_name", "scenario_type", "num_scenarios", "planner_name", "aggregator_type"]

/-- `metric_columns = sorted(list(set(columns) - non_metric_columns))` of
`_update_aggregation_metric`. -/
def metric_columns (df : AggDataFrame) : List String :=
  ((df.columns.filter (fun c => ¬ non_metric_columns.contains c)).dedup).insertionSort (· ≤ ·)

/-- The contributions of one scanned row of a metric-aggregator dataframe:
a summary row (`num_scenarios` not NaN) contributes nothing, and otherwise
each metric column whose cell is not `None` contributes one entry. -/
def row_scores (index file_index : Nat) (file_name : String) (metricCols : List String)
    (r : AggRow) : List ScenarioMetricScoreData :=
  if r.num_scenarios ≠ none then []
  else
    metricCols.filterMap fun c =>
      (r.cell c).map fun v =>
        { experiment_index := index
          metric_aggregator_file_name := file_name
          metric_aggregator_file_index := file_index
          planner_name := r.planner_name
          metric_statistic_name := c
          score := round4 v }

/-- All `(log_name, scenario, entry)` triples produced by the scan of
`_update_aggregation_metric` over the active metric-aggregator dataframes,
in scan order.  The outer list is indexed by experiment, each experiment
holding its `(file name, dataframe)` pairs in file order. -/
def agg_entry_list (frames : List (List (String × AggDataFrame))) (active : List Nat) :
    List (String × String × ScenarioMetricScoreData) :=
  (frames.enum.filter (fun p => active.contains p.1)).flatMap fun p =>
    p.2.enum.flatMap fun q =>
      q.2.2.rows.flatMap fun r =>
        (row_scores p.1 q.1 q.2.1 (metric_columns q.2.2) r).map fun e =>
          (r.log_name, r.scenario, e)

/-- Lookup of the `(log_name, scenario_name)` bucket in the nested
defaultdict built by `_update_aggregation_metric`. -/
def score_bucket (entries : List (String × String × ScenarioMetricScoreData))
    (logName scenarioName : String) : List ScenarioMetricScoreData :=
  entries.filterMap fun t =>
    if t.1 = logName ∧ t.2.1 = scenarioName then some t.2.2 else none

/-- Mirror of `ScenarioTab._update_aggregation_metric`, read as the function
from a `(log name, scenario name)` key to its bucket of metric scores. -/
def update_aggregation_metric (frames : List (List (String × AggDataFrame)))
    (active : List Nat) (logName scenarioName : String) : List ScenarioMetricScoreData :=
  score_bucket (agg_entry_list frames active) logName scenarioName

theorem mem_row_scores {index file_index : Nat} {file_name : String}
    {metricCols : List String} {r : AggRow} {e : ScenarioMetricScoreData} :
    e ∈ row_scores index file_index file_name metricCols r ↔
      r.num_scenarios = none ∧ ∃ c ∈ metricCols, ∃ v, r.cell c = some v ∧
        e = { experiment_index := index
              metric_aggregator_file_name := file_name
              metric_aggregator_file_index := file_index
              planner_name := r.planner_name
              metric_statistic_name := c
              score := round4 v } := by
  unfold row_scores
  by_cases h : r.num_scenarios = none
  · simp [h, List.mem_filterMap, Option.map_eq_some']
    constructor
    · rintro ⟨c, hc, v, hv, he⟩
      exact ⟨c, hc, v, hv, he.symm⟩
    · rintro ⟨c, hc, v, hv, he⟩
      exact ⟨c, hc, v, hv, he.symm⟩
  · simp [h]

theorem mem_agg_entry_list {frames : List (List (String × AggDataFrame))}
    {active : List Nat} {t : String × String × ScenarioMetricScoreData} :
    t ∈ agg_entry_list frames active ↔
      ∃ p ∈ frames.enum, active.contains p.1 ∧ ∃ q ∈ p.2.enum, ∃ r ∈ q.2.2.rows,
        ∃ e ∈ row_scores p.1 q.1 q.2.1 (metric_columns q.2.2) r,
          t = (r.log_name, r.scenario, e) := by
  unfold agg_entry_list
  simp only [List.mem_flatMap, List.mem_filter, List.mem_map]
  constructor
  · rintro ⟨p, ⟨hp, hact⟩, q, hq, r, hr, e, he, ht⟩
    exact ⟨p, hp, hact, q, hq, r, hr, e, he, ht.symm⟩
  · rintro ⟨p, hp, hact, q, hq, r, hr, e, he, ht⟩
    exact ⟨p, ⟨hp, hact⟩, q, hq, r, hr, e, he, ht.symm⟩

theorem mem_score_bucket {entries : List (String × String × ScenarioMetricScoreData)}
    {logName scenarioName : String} {e : ScenarioMetricScoreData} :
    e ∈ score_bucket entries logName scenarioName ↔
      (logName, scenarioName, e) ∈ entries := by
  unfold score_bucket
  simp only [List.mem_filterMap]
  constructor
  · rintro ⟨t, ht, hf⟩
    by_cases h : t.1 = logName ∧ t.2.1 = scenarioName
    · simp only [if_pos h] at hf
      obtain ⟨h1, h2⟩ := h
      obtain ⟨a, b, c⟩ := t
      simp only at h1 h2 hf
      have hce : c = e := Option.some_inj.mp hf
      subst h1; subst h2; subst hce
      exact ht
    · simp [if_neg h] at hf
  · intro ht
    exact ⟨(logName, scenarioName, e), ht, by simp⟩

/-- Full characterization of bucket membership for
`_update_aggregation_metric`: an entry is in the `(log, scenario)` bucket
exactly when it comes from a scanned per-scenario row (an active experiment,
`num_scenarios` NaN) and a metric column whose cell is not `None`. -/
theorem mem_update_aggregation_metric {frames : List (List (String × AggDataFrame))}
    {active : List Nat} {logName scenarioName : String} {e : ScenarioMetricScoreData} :
    e ∈ update_aggregation_metric frames active logName scenarioName ↔
      ∃ p ∈ frames.enum, active.contains p.1 ∧ ∃ q ∈ p.2.enum, ∃ r ∈ q.2.2.rows,
        r.num_scenarios = none ∧ r.log_name = logName ∧ r.scenario = scenarioName ∧
        ∃ c ∈ metric_columns q.2.2, ∃ v, r.cell c = some v ∧
          e = { experiment_index := p.1
                metric_aggregator_file_name := q.2.1
                metric_aggregator_file_index := q.1
                planner_name := r.planner_name
                metric_statistic_name := c
                score := round4 v } := by
  unfold update_aggregation_metric
  rw [mem_score_bucket, mem_agg_entry_list]
  constructor
  · rintro ⟨p, hp, hact, q, hq, r, hr, e', he', ht⟩
    rw [mem_row_scores] at he'
    obtain ⟨hnan, c, hc, v, hv, he⟩ := he'
    obtain ⟨hlog, hscen, hee⟩ : r.log_name = logName ∧ r.scenario = scenarioName ∧ e' = e := by
      have h1 := congrArg Prod.fst ht
      have h2 := congrArg (fun x => x.2.1) ht
      have h3 := congrArg (fun x => x.2.2) ht
      simp at h1 h2 h3
      exact ⟨h1.symm, h2.symm, h3.symm⟩
    exact ⟨p, hp, hact, q, hq, r, hr, hnan, hlog, hscen, c, hc, v, hv, hee ▸ he⟩
  · rintro ⟨p, hp, hact, q, hq, r, hr, hnan, hlog, hscen, c, hc, v, hv, he⟩
    refine ⟨p, hp, hact, q, hq, r, hr, e, ?_, by rw [hlog, hscen]⟩
    rw [mem_row_scores]
    exact ⟨hnan, c, hc, v, hv, he⟩

/-- C1: in the rebuild by `_update_aggregation_metric`, for every scanned
per-scenario row and metric column, a `None` score is skipped: an entry named
after the column exists exactly when the column's cell is non-null, and every
entry of a `(log_name, scenario_name)` bucket stems from a non-null cell. -/
theorem c1_null_scores_skipped (index file_index : Nat) (file_name : String)
    (cols : List String) (r : AggRow) (hrow : r.num_scenarios = none)
    (c : String) (hc : c ∈ cols) :
    ((∃ e ∈ row_scores index file_index file_name cols r, e.metric_statistic_name = c) ↔
      (r.cell c).isSome)
    ∧ ∀ (frames : List (List (String × AggDataFrame))) (active : List Nat)
        (logName scenarioName : String) (e : ScenarioMetricScoreData),
        e ∈ update_aggregation_metric frames active logName scenarioName →
        ∃ p ∈ frames.enum, active.contains p.1 ∧ ∃ q ∈ p.2.enum, ∃ rr ∈ q.2.2.rows,
          rr.num_scenarios = none ∧ rr.log_name = logName ∧ rr.scenario = scenarioName ∧
          ∃ v, rr.cell e.metric_statistic_name = some v ∧ e.score = round4 v := by
  constructor
  · constructor
    · rintro ⟨e, he, hname⟩
      rw [mem_row_scores] at he
      obtain ⟨-, c', hc', v, hv, he⟩ := he
      have : c' = c := by rw [he] at hname; exact hname
      rw [this] at hv
      rw [hv]
      rfl
    · intro hsome
      obtain ⟨v, hv⟩ := Option.isSome_iff_exists.mp hsome
      refine ⟨_, mem_row_scores.mpr ⟨hrow, c, hc, v, hv, rfl⟩, rfl⟩
  · intro frames active logName scenarioName e he
    rw [mem_update_aggregation_metric] at he
    obtain ⟨p, hp, hact, q, hq, rr, hr, hnan, hlog, hscen, c', hc', v, hv, he⟩ := he
    refine ⟨p, hp, hact, q, hq, rr, hr, hnan, hlog, hscen, v, ?_, by rw [he]⟩
    have : e.metric_statistic_name = c' := by rw [he]
    rw [this]
    exact hv

/-- Sample per-scenario aggregator row used to instantiate the aggregation
theorems on concrete data. -/
def sample_agg_row : AggRow :=
  { num_scenarios := none
    planner_name := "plannerA"
    scenario := "scenario1"
    log_name := "log1"
    cell := fun c => if c = "metric_a" then some (1 / 2) else none }

theorem c1_null_scores_skipped_witness :
    (∃ e ∈ row_scores 0 0 "agg" ["metric_a", "metric_b"] sample_agg_row,
        e.metric_statistic_name = "metric_a") ↔
      (sample_agg_row.cell "metric_a").isSome :=
  (c1_null_scores_skipped 0 0 "agg" ["metric_a", "metric_b"] sample_agg_row rfl
    "metric_a" (by simp)).1

/-- C2: in the rebuild by `_update_aggregation_metric`, a row whose
`num_scenarios` field is present (not NaN) contributes zero entries, and
every bucket entry stems from a row whose `num_scenarios` field is empty. -/
theorem c2_summary_rows_skipped :
    (∀ (index file_index : Nat) (file_name : String) (cols : List String) (r : AggRow),
        r.num_scenarios ≠ none → row_scores index file_index file_name cols r = [])
    ∧ ∀ (frames : List (List (String × AggDataFrame))) (active : List Nat)
        (logName scenarioName : String) (e : ScenarioMetricScoreData),
        e ∈ update_aggregation_metric frames active logName scenarioName →
        ∃ p ∈ frames.enum, active.contains p.1 ∧ ∃ q ∈ p.2.enum, ∃ r ∈ q.2.2.rows,
          r.num_scenarios = none ∧ r.log_name = logName ∧ r.scenario = scenarioName := by
  constructor
  · intro index file_index file_name cols r h
    unfold row_scores
    rw [if_pos h]
  · intro frames active logName scenarioName e he
    rw [mem_update_aggregation_metric] at he
    obtain ⟨p, hp, hact, q, hq, r, hr, hnan, hlog, hscen, -⟩ := he
    exact ⟨p, hp, hact, q, hq, r, hr, hnan, hlog, hscen⟩

/-- Sample summary row (non-empty `num_scenarios`). -/
def sample_summary_row : AggRow :=
  { num_scenarios := some 10
    planner_name := "plannerA"
    scenario := "final_score"
    log_name := "log1"
    cell := fun _ => some 1 }

theorem c2_summary_rows_skipped_witness :
    row_scores 1 0 "agg" ["metric_a"] sample_summary_row = [] :=
  c2_summary_rows_skipped.1 1 0 "agg" ["metric_a"] sample_summary_row (by simp [sample_summary_row])

/-- State of the three cascading Bokeh `Select` widgets of the scenario tab. -/
structure SelectionState where
  scenarioTypeValue : String
  scenarioTypeOptions : List String
  logNameValue : String
  logNameOptions : List String
  scenarioNameValue : String
  scenarioNameOptions : List String
deriving DecidableEq, Repr

/-- Mirror of `ScenarioTab._scalar_scenario_type_select_on_change`.  The
available log names (`self.load_log_name(...)`, an external collaborator)
are taken as a parameter.  Setting the log-name value to the empty string
re-enters `_scalar_log_name_select_on_change` with `new = ""`, which returns
immediately, so no further field changes. -/
def scalar_scenario_type_select_on_change (availableLogNames : List String)
    (s : SelectionState) (new : String) : SelectionState :=
  if new = "" then s
  else { s with logNameOptions := "" :: availableLogNames, logNameValue := "" }

/-- Mirror of `ScenarioTab._scalar_log_name_select_on_change`.  The available
scenario names (`self.load_scenario_names(...)`) are taken as a parameter. -/
def scalar_log_name_select_on_change (availableScenarioNames : List String)
    (s : SelectionState) (new : String) : SelectionState :=
  if new = "" then s
  else { s with scenarioNameOptions := "" :: availableScenarioNames, scenarioNameValue := "" }

/-- C3 counterexample: changing the scenario-type selection to a non-empty
value does NOT clear the scenario-name selection; the handler only resets the
log-name selector. -/
theorem c3_counterexample :
    ((scalar_scenario_type_select_on_change ["logA"]
        { scenarioTypeValue := "typeA", scenarioTypeOptions := []
          logNameValue := "log1", logNameOptions := []
          scenarioNameValue := "scn1", scenarioNameOptions := [] }
        "typeB").scenarioNameValue = "scn1")
    ∧ (((scalar_scenario_type_select_on_change ["logA"]
        { scenarioTypeValue := "typeA", scenarioTypeOptions := []
          logNameValue := "log1", logNameOptions := []
          scenarioNameValue := "scn1", scenarioNameOptions := [] }
        "typeB").scenarioNameValue = "") = False) := by
  exact ⟨by decide, eq_false (by decide)⟩

/-- C3 (amended): changing the scenario-type selection to a non-empty value
clears the log-name selection but leaves the scenario-name selection
unchanged; changing the log-name selection to a non-empty value clears the
scenario-name selection. -/
theorem c3_selection_cascade (availableLogNames availableScenarioNames : List String)
    (s : SelectionState) (new : String) (h : new ≠ "") :
    ((scalar_scenario_type_select_on_change availableLogNames s new).logNameValue = ""
      ∧ (scalar_scenario_type_select_on_change availableLogNames s new).scenarioNameValue
          = s.scenarioNameValue)
    ∧ (scalar_log_name_select_on_change availableScenarioNames s new).scenarioNameValue = "" := by
  unfold scalar_scenario_type_select_on_change scalar_log_name_select_on_change
  rw [if_neg h, if_neg h]
  exact ⟨⟨rfl, rfl⟩, rfl⟩

theorem c3_selection_cascade_witness :
    ((scalar_scenario_type_select_on_change ["logA"]
        { scenarioTypeValue := "typeA", scenarioTypeOptions := []
          logNameValue := "log1", logNameOptions := []
          scenarioNameValue := "scn1", scenarioNameOptions := [] }
        "typeB").logNameValue = ""
      ∧ (scalar_scenario_type_select_on_change ["logA"]
          { scenarioTypeValue := "typeA", scenarioTypeOptions := []
            logNameValue := "log1", logNameOptions := []
            scenarioNameValue := "scn1", scenarioNameOptions := [] }
          "typeB").scenarioNameValue = "scn1")
    ∧ (scalar_log_name_select_on_change ["scnA"]
        { scenarioTypeValue := "typeA", scenarioTypeOptions := []
          logNameValue := "log1", logNameOptions := []
          scenarioNameValue := "scn1", scenarioNameOptions := [] }
        "log2").scenarioNameValue = "" :=
  c3_selection_cascade ["logA"] ["scnA"]
    { scenarioTypeValue := "typeA", scenarioTypeOptions := []
      logNameValue := "log1", logNameOptions := []
      scenarioNameValue := "scn1", scenarioNameOptions := [] }
    "typeB" (by decide)

/-- Mirror of the `SimulationScenarioKey` records consumed by the scenario
tab (fields accessed by `_update_planner_names` and `_render_simulations`). -/
structure SimulationScenarioKey where
  nuboard_file_index : Nat
  log_name : String
  planner_name : String
  scenario_type : String
  scenario_name : String
deriving DecidableEq, Repr

/-- State of the planner checkbox group widget. -/
structure PlannerCheckboxGroup where
  labels : List String
  active : List Nat
deriving DecidableEq, Repr

/-- Mirror of `ScenarioTab._update_planner_names`: the labels become the
sorted distinct planner names of the simulation scenario keys matching the
currently selected scenario type and scenario name, and every label index is
made active. -/
def update_planner_names (simulation_scenario_keys : List SimulationScenarioKey)
    (scenarioTypeValue scenarioNameValue : String) : PlannerCheckboxGroup :=
  let selected_keys := simulation_scenario_keys.filter fun key =>
    key.scenario_type == scenarioTypeValue && key.scenario_name == scenarioNameValue
  let sorted_planner_names :=
    ((selected_keys.map (fun k => k.planner_name)).dedup).insertionSort (· ≤ ·)
  { labels := sorted_planner_names, active := List.range sorted_planner_names.length }

/-- C4: on a scenario-name selection change the checkbox group is reset: the
labels are the lexicographically sorted distinct planner names available for
the current (scenario type, scenario name) selection, and every label is
active. -/
theorem c4_planner_checkbox_reset (keys : List SimulationScenarioKey)
    (scenarioTypeValue scenarioNameValue : String) :
    List.Sorted (· ≤ ·) (update_planner_names keys scenarioTypeValue scenarioNameValue).labels
    ∧ (update_planner_names keys scenarioTypeValue scenarioNameValue).labels.Nodup
    ∧ (∀ p, p ∈ (update_planner_names keys scenarioTypeValue scenarioNameValue).labels ↔
        ∃ k ∈ keys, k.scenario_type = scenarioTypeValue ∧ k.scenario_name = scenarioNameValue
          ∧ k.planner_name = p)
    ∧ (update_planner_names keys scenarioTypeValue scenarioNameValue).active
        = List.range (update_planner_names keys scenarioTypeValue scenarioNameValue).labels.length := by
  refine ⟨List.sorted_insertionSort _ _, ?_, ?_, rfl⟩
  · exact ((List.perm_insertionSort _ _).nodup_iff).mpr (List.nodup_dedup _)
  · intro p
    unfold update_planner_names
    simp only [List.mem_insertionSort, List.mem_dedup, List.mem_map, List.mem_filter,
      Bool.and_eq_true, beq_iff_eq]
    constructor
    · rintro ⟨k, ⟨hk, ht, hn⟩, hp⟩
      exact ⟨k, hk, ht, hn, hp⟩
    · rintro ⟨k, hk, ht, hn, hp⟩
      exact ⟨k, ⟨hk, ht, hn⟩, hp⟩

/-- The metric names of the score entries kept by the enabled-planner filter
of `_render_scenario_metric_score` (the keys of its `data` dict, with
multiplicity). -/
def enabled_metric_names (selected : List ScenarioMetricScoreData)
    (enable_planner_names : List String) : List String :=
  (selected.filter fun e => enable_planner_names.contains e.planner_name).map
    fun e => e.metric_statistic_name

/-- `sorted(list(set(data.keys())))` of `_render_scenario_metric_score`. -/
def sorted_enabled_metric_names (selected : List ScenarioMetricScoreData)
    (enable_planner_names : List String) : List String :=
  ((enabled_metric_names selected enable_planner_names).dedup).insertionSort (· ≤ ·)

/-- Mirror of the metric-name ordering of `_render_scenario_metric_score`:
sort the distinct metric names of enabled planners, then move the metric
literally named "score", when present, to the final position. -/
def metric_statistic_names (selected : List ScenarioMetricScoreData)
    (enable_planner_names : List String) : List String :=
  if "score" ∈ sorted_enabled_metric_names selected enable_planner_names then
    ((sorted_enabled_metric_names selected enable_planner_names).erase "score") ++ ["score"]
  else sorted_enabled_metric_names selected enable_planner_names

/-- C5: the ordered metric-name list of `_render_scenario_metric_score` is a
permutation of the sorted distinct enabled metric names (so set membership is
unchanged); without "score" it is exactly the lexicographic sort, and with
"score" present the last element is "score" and the list before it stays
sorted. -/
theorem c5_score_moved_last (selected : List ScenarioMetricScoreData)
    (enable_planner_names : List String) :
    (metric_statistic_names selected enable_planner_names).Perm
      (sorted_enabled_metric_names selected enable_planner_names)
    ∧ (∀ m, m ∈ metric_statistic_names selected enable_planner_names ↔
        m ∈ enabled_metric_names selected enable_planner_names)
    ∧ ("score" ∉ sorted_enabled_metric_names selected enable_planner_names →
        metric_statistic_names selected enable_planner_names
          = sorted_enabled_metric_names selected enable_planner_names)
    ∧ ("score" ∈ sorted_enabled_metric_names selected enable_planner_names →
        metric_statistic_names selected enable_planner_names
            = ((sorted_enabled_metric_names selected enable_planner_names).erase "score")
              ++ ["score"]
          ∧ (metric_statistic_names selected enable_planner_names).getLast? = some "score"
          ∧ List.Sorted (· ≤ ·)
              ((metric_statistic_names selected enable_planner_names).dropLast)) := by
  have hperm : (metric_statistic_names selected enable_planner_names).Perm
      (sorted_enabled_metric_names selected enable_planner_names) := by
    unfold metric_statistic_names
    by_cases h : "score" ∈ sorted_enabled_metric_names selected enable_planner_names
    · rw [if_pos h]
      exact (List.perm_append_singleton _ _).trans (List.perm_cons_erase h).symm
    · rw [if_neg h]
  refine ⟨hperm, ?_, ?_, ?_⟩
  · intro m
    rw [hperm.mem_iff]
    unfold sorted_enabled_metric_names
    rw [List.mem_insertionSort, List.mem_dedup]
  · intro h
    unfold metric_statistic_names
    rw [if_neg h]
  · intro h
    have hif : metric_statistic_names selected enable_planner_names
        = ((sorted_enabled_metric_names selected enable_planner_names).erase "score")
          ++ ["score"] := by
      unfold metric_statistic_names
      rw [if_pos h]
    refine ⟨hif, ?_, ?_⟩
    · rw [hif]
      simp
    · rw [hif]
      have hsub : List.Sublist
          ((sorted_enabled_metric_names selected enable_planner_names).erase "score")
          (sorted_enabled_metric_names selected enable_planner_names) :=
        List.erase_sublist _ _
      have hsorted : List.Sorted (· ≤ ·)
          (sorted_enabled_metric_names selected enable_planner_names) :=
        List.sorted_insertionSort _ _
      simpa using hsorted.sublist hsub

/-- `self._number_metrics_per_figure` set in `ScenarioTab.__init__`. -/
def number_metrics_per_figure : Nat := 4

/-- `ceil(len(metric_statistic_names) / self._number_metrics_per_figure)` of
`_render_scenario_metric_score`. -/
def number_of_figures (n : Nat) : Nat :=
  (n + number_metrics_per_figure - 1) / number_metrics_per_figure

/-- The per-figure slices `metric_statistic_names[start : start + 4]` taken
by `_render_scenario_metric_score`, one slice per figure index. -/
def scenario_metric_score_chunks (metricNames : List String) : List (List String) :=
  (List.range (number_of_figures metricNames.length)).map fun index =>
    (metricNames.drop (index * number_metrics_per_figure)).take number_metrics_per_figure

theorem number_of_figures_succ {n : Nat} (h : 0 < n) :
    number_of_figures n = number_of_figures (n - 4) + 1 := by
  unfold number_of_figures number_metrics_per_figure
  omega

theorem scenario_metric_score_chunks_cons (names : List String) (h : names ≠ []) :
    scenario_metric_score_chunks names
      = names.take 4 :: scenario_metric_score_chunks (names.drop 4) := by
  have hlen : 0 < names.length := List.length_pos.mpr h
  unfold scenario_metric_score_chunks
  rw [List.length_drop, number_of_figures_succ hlen, List.range_succ_eq_map,
    List.map_cons, List.map_map]
  congr 1
  apply List.map_congr_left
  intro i hi
  simp only [Function.comp_apply, List.drop_drop, number_metrics_per_figure]
  congr 2
  omega

theorem scenario_metric_score_chunks_join :
    ∀ (n : Nat) (names : List String), names.length ≤ n →
      (scenario_metric_score_chunks names).flatten = names := by
  intro n
  induction n with
  | zero =>
    intro names h
    have : names = [] := List.eq_nil_of_length_eq_zero (Nat.le_zero.mp h)
    subst this
    rfl
  | succ n ih =>
    intro names h
    cases names with
    | nil => rfl
    | cons a as =>
      rw [scenario_metric_score_chunks_cons _ (by simp), List.flatten_cons,
        ih ((a :: as).drop 4) (by simp at h ⊢; omega)]
      exact List.take_append_drop 4 (a :: as)

/-- C6: `_render_scenario_metric_score` partitions the ordered metric-name
list into consecutive chunks of at most 4 names, one per figure; their
concatenation is the whole list (order preserved), the number of figures is
the ceiling of n / 4, and 9 names yield chunks of sizes 4, 4, 1. -/
theorem c6_figure_chunking (names : List String) :
    (scenario_metric_score_chunks names).flatten = names
    ∧ (scenario_metric_score_chunks names).length = (names.length + 3) / 4
    ∧ (∀ c ∈ scenario_metric_score_chunks names, c.length ≤ number_metrics_per_figure)
    ∧ (names.length = 9 →
        (scenario_metric_score_chunks names).map List.length = [4, 4, 1]) := by
  refine ⟨scenario_metric_score_chunks_join names.length names le_rfl, ?_, ?_, ?_⟩
  · simp [scenario_metric_score_chunks, number_of_figures, number_metrics_per_figure]
  · intro c hc
    unfold scenario_metric_score_chunks at hc
    obtain ⟨i, -, hcc⟩ := List.mem_map.mp hc
    rw [← hcc]
    simp [number_metrics_per_figure, List.length_take]
  · intro h9
    unfold scenario_metric_score_chunks number_of_figures number_metrics_per_figure
    rw [h9]
    norm_num
    simp [List.range_succ, List.length_take, List.length_drop, h9]

/-- Mirror of the dataclass `ScenarioTimeSeriesData` of scenario_tab.py. -/
structure ScenarioTimeSeriesData where
  experiment_index : Nat
  planner_name : String
  time_series_values : List ℚ
  time_series_timestamps : List Int
  time_series_unit : String
deriving DecidableEq, Repr

/-- Modelled from the spec: one row of the result of
`MetricStatisticsDataFrame.query_scenarios` (that class is not among the
given sources).  `firstHeaderCell = none` models the sentinel "the first
time-series cell is empty"; `row_values` and `row_timestamps` are the
per-row nested sequences, flattened one level by the aggregation. -/
structure TimeSeriesRow where
  firstHeaderCell : Option Unit
  row_values : List ℚ
  row_timestamps : List Int
  unit : String

/-- Modelled from the spec: the slice of `MetricStatisticsDataFrame` read by
`_aggregate_time_series_data` (that class is not among the given sources):
its metric name, its planner names, and its query function taking the
scenario name, the optional scenario type, the optional log name and one
planner name. -/
structure MetricStatisticsDataFrame where
  metric_statistic_name : String
  planner_names : List String
  query_scenarios : String → Option String → Option String → String → List TimeSeriesRow

/-- The per-planner body of the loops of `_aggregate_time_series_data`:
query the rows of one scenario for one planner; skip when no rows match or
when the first time-series cell is empty, otherwise flatten the nested
values and timestamps, round the values and keep the first row's unit. -/
def planner_time_series (index : Nat) (df : MetricStatisticsDataFrame)
    (scenarioName : String) (scenarioTypes logNames : Option String)
    (planner_name : String) : Option ScenarioTimeSeriesData :=
  match df.query_scenarios scenarioName scenarioTypes logNames planner_name with
  | [] => none
  | r0 :: rest =>
    if r0.firstHeaderCell = none then none
    else
      some { experiment_index := index
             planner_name := planner_name
             time_series_values := ((r0 :: rest).flatMap fun r => r.row_values).map round4
             time_series_timestamps := (r0 :: rest).flatMap fun r => r.row_timestamps
             time_series_unit := r0.unit }

/-- `if name not in aggregated: aggregated[name] = []` on an
insertion-ordered association list. -/
def ts_dict_insert_key (d : List (String × List ScenarioTimeSeriesData)) (k : String) :
    List (String × List ScenarioTimeSeriesData) :=
  if d.any (fun p => p.1 == k) then d else d ++ [(k, [])]

/-- `aggregated[name].append(sample)` on an insertion-ordered association
list. -/
def ts_dict_append (d : List (String × List ScenarioTimeSeriesData)) (k : String)
    (v : ScenarioTimeSeriesData) : List (String × List ScenarioTimeSeriesData) :=
  d.map fun p => if p.1 == k then (p.1, p.2 ++ [v]) else p

/-- Mirror of `ScenarioTab._aggregate_time_series_data`: an empty mapping is
returned immediately when no scenario name is selected; otherwise each
active experiment's metric dataframes are scanned and every (metric,
planner) pair with data appends one sample under the metric's name. -/
def aggregate_time_series_data
    (metric_statistics_frames : List (List MetricStatisticsDataFrame)) (active : List Nat)
    (scenarioTypeValue logNameValue scenarioNameValue : String) :
    List (String × List ScenarioTimeSeriesData) :=
  let scenario_types := if scenarioTypeValue ≠ "" then some scenarioTypeValue else none
  let log_names := if logNameValue ≠ "" then some logNameValue else none
  if scenarioNameValue = "" then []
  else
    (metric_statistics_frames.enum.filter (fun p => active.contains p.1)).foldl
      (fun acc p =>
        p.2.foldl
          (fun acc2 df =>
            df.planner_names.foldl
              (fun acc3 planner =>
                match planner_time_series p.1 df scenarioNameValue scenario_types
                    log_names planner with
                | none => acc3
                | some sample => ts_dict_append acc3 df.metric_statistic_name sample)
              (ts_dict_insert_key acc2 df.metric_statistic_name))
          acc)
      []

/-- C7: `_aggregate_time_series_data` returns the empty mapping whenever the
scenario-name selector value is empty, for every state of the experiment
dataframes and of the other selectors. -/
theorem c7_empty_scenario_name_short_circuit
    (metric_statistics_frames : List (List MetricStatisticsDataFrame)) (active : List Nat)
    (scenarioTypeValue logNameValue : String) :
    aggregate_time_series_data metric_statistics_frames active
      scenarioTypeValue logNameValue "" = [] := by
  unfold aggregate_time_series_data
  simp

/-- The slice of the per-simulation figure data returned by
`SimulationTile.render_simulation_tiles` that the handlers read: the planner
name owning the figure; the record itself stands for the figure's plot. -/
structure SimulationFigureData where
  planner_name : String
  figure_id : Nat
deriving DecidableEq, Repr

/-- The mutable fields of `ScenarioTab` used by the plot-update handlers,
plus the external collaborator `SimulationTile.render_simulation_tiles`
taken as a function field.  The three layout fields model `children[0]` of
the corresponding Bokeh column layouts, at the level of the data rendered
into them. -/
structure TabState where
  scenario_metric_score_entries : List (String × String × ScenarioMetricScoreData)
  time_series_data : List (String × List ScenarioTimeSeriesData)
  simulation_figure_data : List SimulationFigureData
  metric_statistics_frames : List (List MetricStatisticsDataFrame)
  simulation_scenario_keys : List SimulationScenarioKey
  experiment_file_active_index : List Nat
  scenarioTypeValue : String
  logNameValue : String
  scenarioNameValue : String
  enable_planner_names : List String
  render_simulation_tiles : List SimulationScenarioKey → List SimulationFigureData
  scenario_score_layout : List (String × List ScenarioMetricScoreData)
  time_series_layout : List (String × List ScenarioTimeSeriesData)
  simulation_tile_layout : List SimulationFigureData

/-- Mirror of `ScenarioTab._render_scenario_metric_score`, at the level of
the scatter data each produced figure holds: the empty dict when no log
name or scenario name is selected or no score data is stored; otherwise one
figure per 4-name chunk of the ordered metric names, holding the kept
(enabled-planner) entries of the chunk's metrics. -/
def render_scenario_metric_score (st : TabState) :
    List (String × List ScenarioMetricScoreData) :=
  if st.logNameValue = "" ∨ st.scenarioNameValue = ""
      ∨ st.scenario_metric_score_entries = [] then []
  else
    (scenario_metric_score_chunks
        (metric_statistic_names
          (score_bucket st.scenario_metric_score_entries st.logNameValue st.scenarioNameValue)
          st.enable_planner_names)).enum.map fun q =>
      (toString q.1, q.2.flatMap fun m =>
        ((score_bucket st.scenario_metric_score_entries st.logNameValue
            st.scenarioNameValue).filter fun e =>
          st.enable_planner_names.contains e.planner_name).filter fun e =>
            e.metric_statistic_name == m)

/-- Mirror of `ScenarioTab._render_time_series`, at the level of the line
data each produced figure holds: one figure per metric with at least one
sample with non-empty values, holding those samples in order. -/
def render_time_series
    (aggregated_time_series_data : List (String × List ScenarioTimeSeriesData)) :
    List (String × List ScenarioTimeSeriesData) :=
  aggregated_time_series_data.filterMap fun p =>
    let kept := p.2.filter fun d => !d.time_series_values.isEmpty
    if kept.isEmpty then none else some (p.1, kept)

/-- The time-series filtering step of `_click_planner_checkbox_group`:
`filtered_time_series_data` is a defaultdict receiving only the samples of
enabled planners, so a metric whose samples are all disabled gets no key. -/
def filtered_time_series_data (st : TabState) :
    List (String × List ScenarioTimeSeriesData) :=
  st.time_series_data.filterMap fun p =>
    let kept := p.2.filter fun d => st.enable_planner_names.contains d.planner_name
    if kept.isEmpty then none else some (p.1, kept)

/-- Mirror of `ScenarioTab._click_planner_checkbox_group`: re-render the
score figures, the time-series figures (from the stored
`_time_series_data`, filtered to enabled planners) and the simulation
figures (from the stored `_simulation_figure_data`, filtered likewise), and
swap the three layouts; the stored aggregation fields are not recomputed. -/
def click_planner_checkbox_group (st : TabState) : TabState :=
  { st with
    scenario_score_layout := render_scenario_metric_score st
    time_series_layout := render_time_series (filtered_time_series_data st)
    simulation_tile_layout := st.simulation_figure_data.filter fun d =>
      st.enable_planner_names.contains d.planner_name }

theorem mem_render_scenario_metric_score_planner {st : TabState}
    {fig : String × List ScenarioMetricScoreData} {e : ScenarioMetricScoreData}
    (hfig : fig ∈ render_scenario_metric_score st) (he : e ∈ fig.2) :
    e.planner_name ∈ st.enable_planner_names := by
  unfold render_scenario_metric_score at hfig
  by_cases h : st.logNameValue = "" ∨ st.scenarioNameValue = ""
      ∨ st.scenario_metric_score_entries = []
  · rw [if_pos h] at hfig
    simp at hfig
  · rw [if_neg h] at hfig
    obtain ⟨q, -, hq⟩ := List.mem_map.mp hfig
    rw [← hq] at he
    simp only [List.mem_flatMap, List.mem_filter] at he
    obtain ⟨m, -, ⟨-, hcont⟩, -⟩ := he
    simpa using hcont

theorem mem_render_time_series_filtered_planner {st : TabState}
    {fig : String × List ScenarioTimeSeriesData} {d : ScenarioTimeSeriesData}
    (hfig : fig ∈ render_time_series (filtered_time_series_data st)) (hd : d ∈ fig.2) :
    d.planner_name ∈ st.enable_planner_names := by
  unfold render_time_series at hfig
  obtain ⟨p, hp, hf⟩ := List.mem_filterMap.mp hfig
  by_cases h : (p.2.filter fun d => !d.time_series_values.isEmpty).isEmpty
  · rw [if_pos h] at hf
    simp at hf
  · rw [if_neg h] at hf
    have hfe := Option.some_inj.mp hf
    rw [← hfe] at hd
    obtain ⟨hd', -⟩ := List.mem_filter.mp hd
    unfold filtered_time_series_data at hp
    obtain ⟨p', hp', hfp⟩ := List.mem_filterMap.mp hp
    by_cases h2 : (p'.2.filter fun d =>
        st.enable_planner_names.contains d.planner_name).isEmpty
    · rw [if_pos h2] at hfp
      simp at hfp
    · rw [if_neg h2] at hfp
      have hfpe := Option.some_inj.mp hfp
      rw [← hfpe] at hd'
      obtain ⟨-, hcont⟩ := List.mem_filter.mp hd'
      simpa using hcont

/-- C8: the planner-checkbox handler only re-filters the already-stored
data: the stored aggregation fields are unchanged, every series in the
re-rendered score, time-series and simulation layouts belongs to an enabled
planner, and the re-rendered layouts depend only on the stored data and the
selection (two states agreeing there get identical layouts, whatever their
raw dataframes hold, so no re-aggregation happens). -/
theorem c8_checkbox_refilters_stored_data (st : TabState) :
    (click_planner_checkbox_group st).scenario_metric_score_entries
        = st.scenario_metric_score_entries
    ∧ (click_planner_checkbox_group st).time_series_data = st.time_series_data
    ∧ (click_planner_checkbox_group st).simulation_figure_data = st.simulation_figure_data
    ∧ (∀ fig ∈ (click_planner_checkbox_group st).scenario_score_layout,
        ∀ e ∈ fig.2, e.planner_name ∈ st.enable_planner_names)
    ∧ (∀ fig ∈ (click_planner_checkbox_group st).time_series_layout,
        ∀ d ∈ fig.2, d.planner_name ∈ st.enable_planner_names)
    ∧ (∀ d ∈ (click_planner_checkbox_group st).simulation_tile_layout,
        d.planner_name ∈ st.enable_planner_names)
    ∧ ∀ st2 : TabState,
        st2.scenario_metric_score_entries = st.scenario_metric_score_entries →
        st2.time_series_data = st.time_series_data →
        st2.simulation_figure_data = st.simulation_figure_data →
        st2.logNameValue = st.logNameValue →
        st2.scenarioNameValue = st.scenarioNameValue →
        st2.enable_planner_names = st.enable_planner_names →
        (click_planner_checkbox_group st2).scenario_score_layout
            = (click_planner_checkbox_group st).scenario_score_layout
        ∧ (click_planner_checkbox_group st2).time_series_layout
            = (click_planner_checkbox_group st).time_series_layout
        ∧ (click_planner_checkbox_group st2).simulation_tile_layout
            = (click_planner_checkbox_group st).simulation_tile_layout := by
  refine ⟨rfl, rfl, rfl, ?_, ?_, ?_, ?_⟩
  · intro fig hfig e he
    exact mem_render_scenario_metric_score_planner hfig he
  · intro fig hfig d hd
    exact mem_render_time_series_filtered_planner hfig hd
  · intro d hd
    obtain ⟨-, hcont⟩ := List.mem_filter.mp hd
    simpa using hcont
  · intro st2 h1 h2 h3 h4 h5 h6
    refine ⟨?_, ?_, ?_⟩
    · show render_scenario_metric_score st2 = render_scenario_metric_score st
      unfold render_scenario_metric_score
      rw [h1, h4, h5, h6]
    · show render_time_series (filtered_time_series_data st2)
          = render_time_series (filtered_time_series_data st)
      unfold filtered_time_series_data
      rw [h2, h6]
    · show st2.simulation_figure_data.filter _ = st.simulation_figure_data.filter _
      rw [h3, h6]

/-- A visible-layout mutation performed by the scenario-tab handlers: an
assignment to `children[0]` of one of the three layout columns. -/
inductive LayoutAction where
  | setScoreLayout (figs : List (String × List ScenarioMetricScoreData))
  | setTimeSeriesLayout (figs : List (String × List ScenarioTimeSeriesData))
  | setSimulationLayout (figs : List SimulationFigureData)
deriving DecidableEq

/-- The Bokeh document, reduced to its queue of next-tick callbacks; a
queued callback runs after the current handler has returned, on a later
iteration of the event loop. -/
structure Doc where
  next_tick_callbacks : List LayoutAction

/-- Mirror of `doc.add_next_tick_callback`. -/
def add_next_tick_callback (d : Doc) (a : LayoutAction) : Doc :=
  { next_tick_callbacks := d.next_tick_callbacks ++ [a] }

/-- Application of one layout mutation to the tab state. -/
def apply_layout_action (st : TabState) (a : LayoutAction) : TabState :=
  match a with
  | .setScoreLayout figs => { st with scenario_score_layout := figs }
  | .setTimeSeriesLayout figs => { st with time_series_layout := figs }
  | .setSimulationLayout figs => { st with simulation_tile_layout := figs }

/-- The event loop's later tick: run every queued next-tick callback. -/
def run_next_tick_callbacks (st : TabState) (d : Doc) : TabState :=
  d.next_tick_callbacks.foldl apply_layout_action st

/-- Mirror of `ScenarioTab._render_simulations`: filter the simulation
scenario keys by the full selection; when none match, nothing is stored and
nothing rendered, otherwise the external tile renderer's figures are stored
in `_simulation_figure_data` and returned as the plots. -/
def render_simulations (st : TabState) : TabState × List SimulationFigureData :=
  let selected_keys := st.simulation_scenario_keys.filter fun key =>
    key.scenario_type == st.scenarioTypeValue && key.log_name == st.logNameValue
      && key.scenario_name == st.scenarioNameValue
      && st.experiment_file_active_index.contains key.nuboard_file_index
  if selected_keys.isEmpty then (st, [])
  else
    let figs := st.render_simulation_tiles selected_keys
    ({ st with simulation_figure_data := figs }, figs)

/-- The time-series re-aggregation performed by `_update_scenario_plot`
(`self._time_series_data = self._aggregate_time_series_data()`). -/
def update_scenario_plot_time_series (st : TabState) :
    List (String × List ScenarioTimeSeriesData) :=
  aggregate_time_series_data st.metric_statistics_frames st.experiment_file_active_index
    st.scenarioTypeValue st.logNameValue st.scenarioNameValue

/-- The tab state reached by `_update_scenario_plot` after its synchronous
work: score layout swapped, time series re-aggregated and its layout
swapped, in statement order. -/
def update_scenario_plot_mid_state (st : TabState) : TabState :=
  apply_layout_action
    { apply_layout_action st
        (LayoutAction.setScoreLayout (render_scenario_metric_score st)) with
      time_series_data := update_scenario_plot_time_series st }
    (LayoutAction.setTimeSeriesLayout (render_time_series (update_scenario_plot_time_series st)))

/-- Mirror of `ScenarioTab._update_scenario_plot`: the score and time-series
layout swaps happen synchronously inside the handler, then the simulations
are rendered and the simulation layout swap (`_update_simulation_layouts`)
is only queued on the document via `add_next_tick_callback`.  The result is
the state after the handler, the synchronous layout actions in the order
performed, and the document with the queued callback. -/
def update_scenario_plot (st : TabState) (d : Doc) : TabState × List LayoutAction × Doc :=
  ((render_simulations (update_scenario_plot_mid_state st)).1,
   [LayoutAction.setScoreLayout (render_scenario_metric_score st),
    LayoutAction.setTimeSeriesLayout (render_time_series (update_scenario_plot_time_series st))],
   add_next_tick_callback d
     (LayoutAction.setSimulationLayout
       (render_simulations (update_scenario_plot_mid_state st)).2))

theorem render_simulations_layouts (st : TabState) :
    (render_simulations st).1.scenario_score_layout = st.scenario_score_layout
    ∧ (render_simulations st).1.time_series_layout = st.time_series_layout
    ∧ (render_simulations st).1.simulation_tile_layout = st.simulation_tile_layout := by
  unfold render_simulations
  by_cases h : (st.simulation_scenario_keys.filter fun key =>
      key.scenario_type == st.scenarioTypeValue && key.log_name == st.logNameValue
        && key.scenario_name == st.scenarioNameValue
        && st.experiment_file_active_index.contains key.nuboard_file_index).isEmpty
  · rw [if_pos h]
    exact ⟨rfl, rfl, rfl⟩
  · rw [if_neg h]
    exact ⟨rfl, rfl, rfl⟩

/-- C9: on every run of `_update_scenario_plot`, the score and time-series
layouts are replaced synchronously inside the handler (the handler's
synchronous actions are exactly those two swaps, in that order, and the
returned state already holds the new metric layouts), while the simulation
layout swap is only queued as a next-tick callback: the state after the
handler still has its old simulation layout, which changes to the rendered
plots only when the event loop runs the queued callbacks afterwards, with
the metric layouts already in place. -/
theorem c9_simulation_swap_deferred (st : TabState) (d : Doc) :
    ∃ scoreFigs tsFigs simFigs,
      (update_scenario_plot st d).2.1
          = [LayoutAction.setScoreLayout scoreFigs, LayoutAction.setTimeSeriesLayout tsFigs]
      ∧ scoreFigs = render_scenario_metric_score st
      ∧ tsFigs = render_time_series (update_scenario_plot_time_series st)
      ∧ (update_scenario_plot st d).1.scenario_score_layout = scoreFigs
      ∧ (update_scenario_plot st d).1.time_series_layout = tsFigs
      ∧ (update_scenario_plot st d).1.simulation_tile_layout = st.simulation_tile_layout
      ∧ (update_scenario_plot st d).2.2.next_tick_callbacks
          = d.next_tick_callbacks ++ [LayoutAction.setSimulationLayout simFigs]
      ∧ (d.next_tick_callbacks = [] →
          (run_next_tick_callbacks (update_scenario_plot st d).1
              (update_scenario_plot st d).2.2).simulation_tile_layout = simFigs
          ∧ (run_next_tick_callbacks (update_scenario_plot st d).1
              (update_scenario_plot st d).2.2).scenario_score_layout = scoreFigs
          ∧ (run_next_tick_callbacks (update_scenario_plot st d).1
              (update_scenario_plot st d).2.2).time_series_layout = tsFigs) := by
  refine ⟨render_scenario_metric_score st,
    render_time_series (update_scenario_plot_time_series st),
    (render_simulations (update_scenario_plot_mid_state st)).2,
    rfl, rfl, rfl, ?_, ?_, ?_, rfl, ?_⟩
  · exact (render_simulations_layouts (update_scenario_plot_mid_state st)).1
  · exact (render_simulations_layouts (update_scenario_plot_mid_state st)).2.1
  · exact (render_simulations_layouts (update_scenario_plot_mid_state st)).2.2
  · intro hd
    unfold run_next_tick_callbacks update_scenario_plot add_next_tick_callback
    rw [hd]
    simp only [List.nil_append, List.foldl_cons, List.foldl_nil]
    refine ⟨rfl, ?_, ?_⟩
    · exact (render_simulations_layouts (update_scenario_plot_mid_state st)).1
    · exact (render_simulations_layouts (update_scenario_plot_mid_state st)).2.1

/-- A tensor: its shape and its flat (row-major) data, over rationals. -/
structure Tensor where
  shape : List Nat
  data : List ℚ
deriving DecidableEq, Repr

/-- PyTorch `t.view(n, -1, s)`: succeeds when `n * s` is positive and
divides the element count, inferring the middle dimension; the flat data is
unchanged. -/
def Tensor.view3 (t : Tensor) (num_batches state_size : Nat) : Option Tensor :=
  if 0 < num_batches * state_size ∧ (num_batches * state_size) ∣ t.data.length then
    some { shape := [num_batches, t.data.length / (num_batches * state_size), state_size]
           data := t.data }
  else none

/-- Mirror of `convert_predictions_to_trajectory` of raster_model_our.py:
`predictions.view(predictions.shape[0], -1, Trajectory.state_size())`.
`Trajectory.state_size()` is defined outside the given sources and is taken
as the parameter `state_size`. -/
def convert_predictions_to_trajectory (state_size : Nat) (predictions : Tensor) :
    Option Tensor :=
  match predictions.shape with
  | [] => none
  | num_batches :: _ => predictions.view3 num_batches state_size

/-- `out.reshape(out.size(0), -1)` of `RasterModelOur.forward`. -/
def Tensor.reshape2 (t : Tensor) : Option Tensor :=
  match t.shape with
  | [] => none
  | n :: _ =>
    if 0 < n ∧ n ∣ t.data.length then
      some { shape := [n, t.data.length / n], data := t.data }
    else none

/-- The CNN wrapper of raster_model_our.py.  The convolutional stack
`self.layer` and the linear head `self.fc2` are external torch modules,
modelled as opaque tensor functions; `state_size` stands for
`Trajectory.state_size()`. -/
structure RasterModelOur where
  state_size : Nat
  layer : Tensor → Tensor
  fc2 : Tensor → Tensor

/-- Mirror of `RasterModelOur.forward`: apply `self.layer`, reshape to
`(batch, -1)`, apply `self.fc2`, then `convert_predictions_to_trajectory`. -/
def RasterModelOur.forward (m : RasterModelOur) (raster : Tensor) : Option Tensor :=
  (Tensor.reshape2 (m.layer raster)).bind fun out2 =>
    convert_predictions_to_trajectory m.state_size (m.fc2 out2)

theorem view3_eq {t : Tensor} {n s k : Nat} (hlen : t.data.length = n * (k * s))
    (hn : 0 < n) (hs : 0 < s) :
    t.view3 n s = some { shape := [n, k, s], data := t.data } := by
  unfold Tensor.view3
  rw [hlen, if_pos ⟨Nat.mul_pos hn hs, ⟨k, by ring⟩⟩]
  have harith : n * (k * s) / (n * s) = k := by
    rw [show n * (k * s) = n * s * k by ring]
    exact Nat.mul_div_cancel_left k (Nat.mul_pos hn hs)
  rw [harith]

theorem convert_predictions_eq {t : Tensor} {n : Nat} {rest : List Nat} {s : Nat}
    (h : t.shape = n :: rest) :
    convert_predictions_to_trajectory s t = t.view3 n s := by
  unfold convert_predictions_to_trajectory
  rw [h]

/-- C10: `convert_predictions_to_trajectory` maps a predictions tensor with
batch dimension n and a per-batch element count that is a multiple of
`Trajectory.state_size()` to a tensor of shape (n, k, state_size) holding
the same elements in the same order; consequently, whenever the reshaped
network output fed to `fc2` has shape (n, F) with F a multiple of the state
size, `RasterModelOur.forward` returns a trajectory tensor with batch
dimension n and final dimension state_size. -/
theorem c10_convert_predictions_shape (state_size n k : Nat) (t : Tensor)
    (rest : List Nat) (hshape : t.shape = n :: rest)
    (hlen : t.data.length = n * (k * state_size)) (hn : 0 < n) (hs : 0 < state_size) :
    (convert_predictions_to_trajectory state_size t
        = some { shape := [n, k, state_size], data := t.data })
    ∧ ∀ (m : RasterModelOur) (raster : Tensor) (b F kk : Nat) (rest2 : List Nat),
        (m.layer raster).shape = b :: rest2 →
        0 < b →
        b ∣ (m.layer raster).data.length →
        (m.fc2 { shape := [b, (m.layer raster).data.length / b]
                 data := (m.layer raster).data }).shape = [b, F] →
        (m.fc2 { shape := [b, (m.layer raster).data.length / b]
                 data := (m.layer raster).data }).data.length = b * F →
        0 < m.state_size →
        F = kk * m.state_size →
        m.forward raster
            = some { shape := [b, kk, m.state_size]
                     data := (m.fc2 { shape := [b, (m.layer raster).data.length / b]
                                      data := (m.layer raster).data }).data } := by
  constructor
  · rw [convert_predictions_eq hshape]
    exact view3_eq hlen hn hs
  · intro m raster b F kk rest2 hlshape hb hdvd hfshape hflen hms hF
    unfold RasterModelOur.forward
    have hreshape : Tensor.reshape2 (m.layer raster)
        = some { shape := [b, (m.layer raster).data.length / b]
                 data := (m.layer raster).data } := by
      have hstep : Tensor.reshape2 (m.layer raster)
          = if 0 < b ∧ b ∣ (m.layer raster).data.length then
              some { shape := [b, (m.layer raster).data.length / b]
                     data := (m.layer raster).data }
            else none := by
        unfold Tensor.reshape2
        rw [hlshape]
      rw [hstep, if_pos ⟨hb, hdvd⟩]
    rw [hreshape, Option.some_bind, convert_predictions_eq hfshape]
    exact view3_eq (by rw [hflen, hF]) hb hms

/-- Sample predictions tensor: batch size 2, 6 features per batch element. -/
def sample_predictions : Tensor :=
  { shape := [2, 6], data := [0, 1, 2, 3, 4, 5, 6, 7, 8, 9, 10, 11] }

theorem c10_convert_predictions_shape_witness :
    convert_predictions_to_trajectory 3 sample_predictions
      = some { shape := [2, 2, 3], data := sample_predictions.data } :=
  (c10_convert_predictions_shape 3 2 2 sample_predictions [6] rfl (by decide)
    (by decide) (by decide)).1
